import Mathlib

/-!
Shallow embedding of the luxo-tcp-app server core
(`src/bin/server/binary_message.rs`, `guess_game.rs`, `server.rs`,
`server_commands.rs`).

Conventions:
* Rust `String` / `Vec<u8>` values are represented by `List Nat` of their
  UTF-8 bytes; every literal the server manipulates is ASCII.
* machine integers (`u8`, `u16`, `u64`, `u128`) are `Nat` with an explicit
  `% 2 ^ w` at the operations where wrap-around can occur (the `u8`
  attempts decrement, the `u16` length field);
* fallible / panicking code is `Option` or `Except`: a Rust panic (slice
  out of range, `unwrap` failure, index out of bounds) and a self-deadlock
  (re-acquiring the already held write lock) are both modelled as `none`;
* `thread_send.send` can only fail when the dispatcher channel is closed
  (an external condition); it is modelled as always succeeding, and the
  messages posted to the intake channel are collected in order.
-/

namespace LuxoServer

/-- UTF-8 bytes of an ASCII string (every literal used by the server is ASCII,
so the code point of each character is its single byte). -/
def ascii (s : String) : List Nat := s.data.map Char.toNat

/-- Decimal digits of a natural number as ASCII bytes, modelling the `{}`
formatting of Rust integers. -/
def decBytes (n : Nat) : List Nat := ascii (Nat.repr n)

/-- `MessageType` from `binary_message.rs` (`#[repr(u8)]`). -/
inductive MessageType
  | Unknown
  | Command
  | Message
deriving DecidableEq

/-- The `u8` discriminant of a `MessageType` (`message_type as u8`). -/
def MessageType.tag : MessageType → Nat
  | .Unknown => 0
  | .Command => 1
  | .Message => 2

/-- `BinaryMessage` from `binary_message.rs`: a `u16` length field, a type tag
and the payload bytes. -/
structure BinaryMessage where
  length : Nat
  message_type : MessageType
  message : List Nat
deriving DecidableEq

/-- `BinaryMessage::new_message`: `length` is `text.len() as u16`. -/
def BinaryMessage.new_message (text : List Nat) : BinaryMessage :=
  { length := text.length % 65536, message_type := .Message, message := text }

/-- `BinaryMessage::new_command`: `length` is `text.len() as u16`. -/
def BinaryMessage.new_command (text : List Nat) : BinaryMessage :=
  { length := text.length % 65536, message_type := .Command, message := text }

/-- `BinaryMessage::serialize`: big-endian `u16` length, one tag byte, then
the payload bytes. -/
def BinaryMessage.serialize (m : BinaryMessage) : List Nat :=
  [m.length / 256 % 256, m.length % 256, m.message_type.tag] ++ m.message

/-- `BinaryMessage::deserialize`.  Fewer than 3 bytes yield the
`Unknown`/empty message.  Otherwise the length and tag are read, and the
payload is the slice `message[3..length + 3]`; when `length + 3` exceeds the
buffer, that Rust slice indexing panics, modelled as `none`. -/
def BinaryMessage.deserialize (buf : List Nat) : Option BinaryMessage :=
  match buf with
  | b0 :: b1 :: b2 :: rest =>
    if 0 < b0 * 256 + b1 then
      if b0 * 256 + b1 + 3 ≤ buf.length then
        some { length := b0 * 256 + b1
               message_type :=
                 match b2 with | 1 => .Command | 2 => .Message | _ => .Unknown
               message := rest.take (b0 * 256 + b1) }
      else
        none
    else
      some { length := b0 * 256 + b1
             message_type :=
               match b2 with | 1 => .Command | 2 => .Message | _ => .Unknown
             message := [] }
  | _ => some { length := 0, message_type := .Unknown, message := [] }

/-- `GameState` from `guess_game.rs`. -/
inductive GameState
  | Victory
  | Defeat
  | Ongoing
deriving DecidableEq

/-- `Game` from `guess_game.rs`.  `attempts` is a `u8`. -/
structure Game where
  game_id : Nat
  host_id : Nat
  opponent_id : Nat
  secret : List Nat
  attempts : Nat
  last_guess : List Nat
  last_hint : List Nat
  game_state : GameState
deriving DecidableEq

/-- Decimal concatenation, modelling `format!` of two integers followed by a
parse (used by `Game::new` to build the game id). -/
def decConcat (a b : Nat) : Nat := a * 10 ^ (Nat.repr b).length + b

/-- `Game::new`.  The Rust code derives the id from the wall clock and the two
participant ids; the clock reading is the explicit parameter `ts`. -/
def Game.new (ts : Nat) (id_host id_guest : Nat) (secret : List Nat) : Game :=
  { game_id := decConcat (decConcat ts id_guest) id_host
    host_id := id_host
    opponent_id := id_guest
    secret := secret
    attempts := 3
    last_guess := []
    last_hint := []
    game_state := .Ongoing }

/-- `ServerType` from `server.rs`. -/
inductive ServerType
  | TCP
  | UNIX
deriving DecidableEq

/-- `ServerData` from `server.rs`. -/
structure ServerData where
  connected_users : List Nat
  password : List Nat
  server_type : ServerType
  ongoing_games : List Game
deriving DecidableEq

/-- `ServerCommandError` from `server_commands.rs`. -/
inductive ServerCommandError
  | TerminateThread (msg : List Nat)
  | ErrorMessage (msg : List Nat)
  | TerminateUser (msg : List Nat)
deriving DecidableEq

/-- `iter().max().unwrap_or(0)` on a list of naturals. -/
def listMax (l : List Nat) : Nat := l.foldl Nat.max 0

/-- ASCII fragment of `str::to_lowercase` (the secrets and guesses the
server compares are ASCII; only the `A`–`Z` range is mapped). -/
def toLowercase (l : List Nat) : List Nat :=
  l.map fun b => if 65 ≤ b ∧ b ≤ 90 then b + 32 else b

/-- A UTF-8 continuation byte (`0x80`–`0xBF`). -/
def contByte (b : Nat) : Bool := 128 ≤ b && b ≤ 191

/-- Validity of a byte sequence as UTF-8, as checked by
`String::from_utf8` (shortest-form sequences only, surrogates excluded). -/
def validUtf8 : List Nat → Bool
  | [] => true
  | b :: rest =>
    if b ≤ 127 then validUtf8 rest
    else if 194 ≤ b ∧ b ≤ 223 then
      match rest with
      | c :: r => contByte c && validUtf8 r
      | [] => false
    else if 224 ≤ b ∧ b ≤ 239 then
      match rest with
      | c1 :: c2 :: r =>
        (if b = 224 then 160 ≤ c1 && c1 ≤ 191
         else if b = 237 then 128 ≤ c1 && c1 ≤ 159
         else contByte c1) && contByte c2 && validUtf8 r
      | _ => false
    else if 240 ≤ b ∧ b ≤ 244 then
      match rest with
      | c1 :: c2 :: c3 :: r =>
        (if b = 240 then 144 ≤ c1 && c1 ≤ 191
         else if b = 244 then 128 ≤ c1 && c1 ≤ 143
         else contByte c1) && contByte c2 && contByte c3 && validUtf8 r
      | _ => false
    else false

/-- `String::from_utf8` on a byte vector; the resulting Rust `String` is
represented by the same UTF-8 bytes. -/
def fromUtf8 (l : List Nat) : Option (List Nat) :=
  if validUtf8 l then some l else none

/-- An ASCII whitespace byte (the fragment of `char::is_whitespace` the
server's ASCII traffic can contain). -/
def isWhitespaceByte (b : Nat) : Bool :=
  b == 32 || b == 9 || b == 10 || b == 11 || b == 12 || b == 13

/-- Worker for `splitWhitespace`, accumulating the current token reversed. -/
def splitWhitespaceAux : List Nat → List Nat → List (List Nat)
  | [], acc => if acc.isEmpty then [] else [acc.reverse]
  | b :: rest, acc =>
    if isWhitespaceByte b then
      if acc.isEmpty then splitWhitespaceAux rest []
      else acc.reverse :: splitWhitespaceAux rest []
    else splitWhitespaceAux rest (b :: acc)

/-- `str::split_whitespace().collect()`: maximal non-whitespace tokens, with
no empty tokens. -/
def splitWhitespace (l : List Nat) : List (List Nat) := splitWhitespaceAux l []

/-- An ASCII decimal digit byte. -/
def isDigitByte (b : Nat) : Bool := 48 ≤ b && b ≤ 57

/-- Value of a string of ASCII digit bytes. -/
def digitsToNat (l : List Nat) : Nat :=
  l.foldl (fun acc b => acc * 10 + (b - 48)) 0

/-- `str::parse::<u64>()`: an optional leading `+`, then at least one digit,
rejecting values that do not fit in a `u64`. -/
def parseU64 (l : List Nat) : Option Nat :=
  let digits := if l.headD 0 = 43 then l.tail else l
  if digits.isEmpty then none
  else if digits.all isDigitByte then
    let v := digitsToNat digits
    if v < 2 ^ 64 then some v else none
  else none

/-- `ServerData::get_opponents`. -/
def ServerData.get_opponents (s : ServerData) (local_id : Nat) : Option (List Nat) :=
  if s.connected_users.isEmpty then none
  else some (s.connected_users.filter fun x => x ≠ local_id)

/-- `ServerData::start_game`: only the guest is required to be connected and
distinct from the host; the new game is appended to `ongoing_games`. -/
def ServerData.start_game (s : ServerData) (ts id_host id_guest : Nat)
    (secret : List Nat) : Except ServerCommandError (Nat × ServerData) :=
  if (s.connected_users.any fun id => id_guest == id) = false then
    .error (.ErrorMessage (ascii "ERROR user " ++ decBytes id_guest ++
      ascii " doesn" ++ [39] ++ ascii "t exist, cannot begin game"))
  else if id_guest = id_host then
    .error (.ErrorMessage (ascii "ERROR user " ++ decBytes id_guest ++
      ascii " cannot match with himself!"))
  else
    let new_game := Game.new ts id_host id_guest secret
    .ok (new_game.game_id, { s with ongoing_games := s.ongoing_games ++ [new_game] })

/-- `ServerData::get_game_id`: the first game in which `id` is the host or
the opponent. -/
def ServerData.get_game_id (s : ServerData) (id : Nat) : Option Nat :=
  (s.ongoing_games.find? fun g => g.host_id == id || g.opponent_id == id).map
    Game.game_id

/-- `ServerData::get_game_mut_ref` as a lookup by game id. -/
def ServerData.get_game (s : ServerData) (id : Nat) : Option Game :=
  s.ongoing_games.find? fun g => g.game_id == id

/-- `ServerData::get_opponent_id`: the opponent of the first game hosted by
`player_id`. -/
def ServerData.get_opponent_id (s : ServerData) (player_id : Nat) :
    Except ServerCommandError Nat :=
  match s.ongoing_games.find? fun g => player_id == g.host_id with
  | some g => .ok g.opponent_id
  | none => .error (.ErrorMessage (ascii "game has no oppponent"))

/-- `ServerData::get_host_id`: the host of the first game in which
`player_id` is the opponent. -/
def ServerData.get_host_id (s : ServerData) (player_id : Nat) :
    Except ServerCommandError Nat :=
  match s.ongoing_games.find? fun g => player_id == g.opponent_id with
  | some g => .ok g.host_id
  | none => .error (.ErrorMessage (ascii "game has no host"))

/-- `ServerData::terminate_game`. -/
def ServerData.terminate_game (s : ServerData) (id : Nat) :
    Except ServerCommandError ServerData :=
  if (s.ongoing_games.any fun g => id == g.game_id) = false then
    .error (.ErrorMessage (ascii "user " ++ decBytes id ++
      ascii " doesn" ++ [39] ++ ascii "t exist"))
  else
    .ok { s with ongoing_games := s.ongoing_games.filter fun g => g.game_id != id }

/-- The in-place mutation `update_game_guess` performs on the matched game,
returning the state it reports.  On a correct (case-insensitive) guess the
state becomes `Victory`; otherwise the `u8` attempts counter is decremented
(wrapping, as in release builds) and `last_guess` recorded, reaching
`Defeat` at zero, else the game's current state field is reported. -/
def guessStep (guess : List Nat) (g : Game) : GameState × Game :=
  if toLowercase guess = toLowercase g.secret then
    (.Victory, { g with game_state := .Victory })
  else
    let g1 := { g with attempts := (g.attempts + 255) % 256, last_guess := guess }
    if g1.attempts = 0 then (.Defeat, { g1 with game_state := .Defeat })
    else (g1.game_state, g1)

/-- The loop of `ServerData::update_game_guess` over `ongoing_games`:
the first game whose id matches is updated in place. -/
def updateGamesGuess (id : Nat) (guess : List Nat) :
    List Game → Option (GameState × List Game)
  | [] => none
  | g :: rest =>
    if g.game_id = id then
      some ((guessStep guess g).1, (guessStep guess g).2 :: rest)
    else
      (updateGamesGuess id guess rest).map fun p => (p.1, g :: p.2)

/-- `ServerData::update_game_guess`. -/
def ServerData.update_game_guess (s : ServerData) (id : Nat) (guess : List Nat) :
    Except ServerCommandError (GameState × ServerData) :=
  match updateGamesGuess id guess s.ongoing_games with
  | some (st, games) => .ok (st, { s with ongoing_games := games })
  | none => .error (.ErrorMessage (ascii "Game does not exist, cannot update guess"))

/-- The loop of `ServerData::update_game_hint` over `ongoing_games`. -/
def updateGamesHint (id : Nat) (hint : List Nat) : List Game → Option (List Game)
  | [] => none
  | g :: rest =>
    if g.game_id = id then some ({ g with last_hint := hint } :: rest)
    else (updateGamesHint id hint rest).map fun l => g :: l

/-- `ServerData::update_game_hint`. -/
def ServerData.update_game_hint (s : ServerData) (id : Nat) (hint : List Nat) :
    Except ServerCommandError ServerData :=
  match updateGamesHint id hint s.ongoing_games with
  | some games => .ok { s with ongoing_games := games }
  | none => .error (.ErrorMessage (ascii "game does not exist, cannot update hint"))

/-- `ServerData::validate_password`. -/
def ServerData.validate_password (s : ServerData) (password_external : List Nat) :
    Bool :=
  s.password == password_external

/-- `ServerData::user_exists`. -/
def ServerData.user_exists (s : ServerData) (id : Nat) : Bool :=
  s.connected_users.any fun x => x == id

/-- `ServerData::add_user`: the new id is one more than the maximum connected
id (`unwrap_or(0)` on an empty list), and is pushed onto the list. -/
def ServerData.add_user (s : ServerData) : Nat × ServerData :=
  let id := listMax s.connected_users + 1
  (id, { s with connected_users := s.connected_users ++ [id] })

/-- `ServerData::drop_user`. -/
def ServerData.drop_user (s : ServerData) (id : Nat) :
    Except ServerCommandError ServerData :=
  if s.user_exists id = false then
    .error (.ErrorMessage (ascii "user " ++ decBytes id ++
      ascii " doesn" ++ [39] ++ ascii "t exist"))
  else
    .ok { s with connected_users := s.connected_users.filter fun x => x != id }

/-- `ServerCommandList` from `server_commands.rs`. -/
inductive ServerCommandList
  | Unknown
  | HeartBeat
  | Drop
  | DirectMessage (data : List Nat)
  | Hint (data : List Nat)
  | Guess (data : List Nat)
  | StartGame (data : List Nat)
  | Message (data : List Nat)
  | CancelGame
  | RequestOpponents
deriving DecidableEq

/-- Rust `{:?}` formatting of a `Vec<u64>`, e.g. `[1, 2]`. -/
def vecRepr (l : List Nat) : List Nat :=
  ascii "[" ++ (List.intersperse (ascii ", ") (l.map decBytes)).flatten ++ ascii "]"

instance {ε α : Type} [DecidableEq ε] [DecidableEq α] : DecidableEq (Except ε α) :=
  fun x y =>
    match x, y with
    | .ok a, .ok b =>
      if h : a = b then .isTrue (h ▸ rfl) else .isFalse fun hc => h (Except.ok.inj hc)
    | .error a, .error b =>
      if h : a = b then .isTrue (h ▸ rfl) else .isFalse fun hc => h (Except.error.inj hc)
    | .ok _, .error _ => .isFalse fun hc => Except.noConfusion hc
    | .error _, .ok _ => .isFalse fun hc => Except.noConfusion hc

/-- Result of one `ServerCommandList::execute` call: the registry state on
return, the `(recipient, message)` pairs posted to the dispatcher intake
channel (in order), and the reply `Result`. -/
structure ExecOutcome where
  server : ServerData
  sent : List (Nat × BinaryMessage)
  reply : Except ServerCommandError BinaryMessage
deriving DecidableEq

/-- `ServerCommandList::execute`.  `s` is the registry state when the write
(or read) lock is taken, `local_id` the acting user, and `ts` the clock
reading `Game::new` would use (only the `StartGame` arm consumes it).
`none` models a panic or a self-deadlock; `thread_send` is modelled as
always succeeding (its error arm fires only when the dispatcher channel is
closed). -/
def execute (cmd : ServerCommandList) (s : ServerData) (local_id : Nat)
    (ts : Nat) : Option ExecOutcome :=
  match cmd with
  | .Unknown =>
    some ⟨s, [], .ok (BinaryMessage.new_message (ascii "Unknown command received"))⟩
  | .HeartBeat =>
    some ⟨s, [], .ok (BinaryMessage.new_message (ascii "OK Heartbeat received"))⟩
  | .Drop =>
    -- After the optional first block, the arm re-checks `get_game_id`;
    -- a hit there calls `server.write()` while `server_write_lock` is still
    -- held (self-deadlock, `none`), otherwise `drop_user` is never reached
    -- and the arm replies `TerminateUser`.
    let tail := fun (s1 : ServerData) (sent1 : List (Nat × BinaryMessage)) =>
      match s1.get_game_id local_id with
      | some _ => (none : Option ExecOutcome)
      | none =>
        some ⟨s1, sent1, .error (.TerminateUser (ascii "user " ++
          decBytes local_id ++ ascii " dropped"))⟩
    match s.get_game_id local_id with
    | some game_id =>
      match s.get_game game_id with
      | none => none
      | some game_clone =>
        match s.terminate_game game_id with
        | .error e => some ⟨s, [], .error e⟩
        | .ok s1 =>
          tail s1
            [(game_clone.opponent_id, BinaryMessage.new_message (ascii "MATCH CANCELED"))]
    | none => tail s []
  | .DirectMessage data =>
    if data.isEmpty then
      some ⟨s, [], .error (.ErrorMessage
        (ascii "ERROR Direct message must be at least 8 bytes long"))⟩
    else
      match fromUtf8 data with
      | none => none
      | some string_text =>
        match splitWhitespace string_text with
        | [] => none
        | t0 :: rest0 =>
          match parseU64 t0 with
          | none =>
            -- the Rust text ends with the library parse error's display
            some ⟨s, [], .error (.ErrorMessage
              (ascii "ERROR Direct message must start with a valid ID: invalid digit found in string"))⟩
          | some id =>
            match rest0 with
            | [] => none
            | t1 :: _ =>
              some ⟨s, [(id, BinaryMessage.new_message t1)],
                .ok (BinaryMessage.new_message (ascii "OK Sent " ++ [39] ++ t1 ++
                  [39] ++ ascii " to ID " ++ decBytes id))⟩
  | .Message data =>
    match fromUtf8 data with
    | none =>
      -- the Rust text ends with the library utf8 error's display
      some ⟨s, [], .error (.ErrorMessage (ascii "ERROR: invalid utf-8 sequence"))⟩
    | some text =>
      some ⟨s, [], .ok (BinaryMessage.new_message
        (ascii "Message " ++ text ++ ascii " sent"))⟩
  | .Hint data =>
    match fromUtf8 data with
    | none => none
    | some hint =>
      match s.get_game_id local_id with
      | some game_id =>
        match s.update_game_hint game_id hint with
        | .error e => some ⟨s, [], .error e⟩
        | .ok s1 =>
          match s1.get_opponent_id local_id with
          | .error e => some ⟨s1, [], .error e⟩
          | .ok opponent_id =>
            some ⟨s1, [(opponent_id, BinaryMessage.new_message (ascii "HINT " ++ hint))],
              .ok (BinaryMessage.new_message (ascii "Hint sent"))⟩
      | none =>
        some ⟨s, [], .error (.ErrorMessage (ascii "ERROR no game with id " ++
          decBytes local_id ++ ascii " found"))⟩
  | .Guess data =>
    match s.get_game_id local_id with
    | some game_id =>
      match s.get_game game_id with
      | none => none
      | some game =>
        -- the state, host id and attempts are read BEFORE the guess is applied
        let game_state := game.game_state
        let game_host_id := game.host_id
        match fromUtf8 data with
        | none =>
          some ⟨s, [], .error (.ErrorMessage (ascii "ERROR: invalid utf-8 sequence"))⟩
        | some guess =>
          let attempts := game.attempts
          match s.update_game_guess game_id guess with
          | .error e => some ⟨s, [], .error e⟩
          | .ok (_, s1) =>
            match game_state with
            | .Victory =>
              match s1.terminate_game game_id with
              | .error e =>
                some ⟨s1, [(game_host_id, BinaryMessage.new_command (ascii "DEFEAT"))],
                  .error e⟩
              | .ok s2 =>
                some ⟨s2, [(game_host_id, BinaryMessage.new_command (ascii "DEFEAT"))],
                  .ok (BinaryMessage.new_command (ascii "VICTORY"))⟩
            | .Defeat =>
              some ⟨s1, [(game_host_id, BinaryMessage.new_command (ascii "VICTORY"))],
                .ok (BinaryMessage.new_command (ascii "DEFEAT"))⟩
            | .Ongoing =>
              some ⟨s1,
                [(game_host_id, BinaryMessage.new_message (ascii "Guess " ++ guess ++
                  ascii " IS INCORRECT, " ++ decBytes attempts ++ ascii " ATTEMPTS LEFT"))],
                .ok (BinaryMessage.new_message (ascii "OK GUESS " ++ guess ++
                  ascii " IS INCORRECT, " ++ decBytes attempts ++ ascii " ATTEMPTS LEFT"))⟩
    | none =>
      some ⟨s, [], .error (.ErrorMessage (ascii "CANCELED Game where local player ID " ++
        decBytes local_id ++
        ascii " is trying to guess, does not exist. cancelling match"))⟩
  | .StartGame data =>
    if data.isEmpty then
      some ⟨s, [], .error (.ErrorMessage
        (ascii "ERROR Direct message must be at least 8 bytes long"))⟩
    else
      match fromUtf8 data with
      | none => none
      | some string_text =>
        match splitWhitespace string_text with
        | [t0, t1] =>
          match parseU64 t0 with
          | none =>
            some ⟨s, [], .error (.ErrorMessage
              (ascii "ERROR Direct message must start with a valid ID: invalid digit found in string"))⟩
          | some opponent_id =>
            match s.start_game ts local_id opponent_id t1 with
            | .error e => some ⟨s, [], .error e⟩
            | .ok (_, s1) =>
              some ⟨s1, [(opponent_id, BinaryMessage.new_command (ascii "REQUESTEDGAME"))],
                .ok (BinaryMessage.new_command (ascii "REQUESTACK"))⟩
        | _ =>
          some ⟨s, [], .error (.ErrorMessage
            (ascii "ERROR Direct message must have 2 arguments"))⟩
  | .CancelGame =>
    match s.get_game_id local_id with
    | some game_id =>
      match s.get_game game_id with
      | none => none
      | some game_clone =>
        match s.terminate_game game_id with
        | .error e => some ⟨s, [], .error e⟩
        | .ok s1 =>
          some ⟨s1,
            [(game_clone.opponent_id, BinaryMessage.new_message (ascii "MATCH CANCELED"))],
            .ok (BinaryMessage.new_command (ascii "CANCELED"))⟩
    | none =>
      some ⟨s, [], .error (.ErrorMessage (ascii "user " ++ decBytes local_id ++
        ascii " doesn" ++ [39] ++ ascii "t participate in a game, cannot terminate"))⟩
  | .RequestOpponents =>
    match s.get_opponents local_id with
    | some opponents =>
      some ⟨s, [], .ok (BinaryMessage.new_message
        (ascii "OPPONENT LIST " ++ vecRepr opponents))⟩
    | none =>
      some ⟨s, [], .error (.ErrorMessage (ascii "ERROR No opponents found"))⟩

/-- Repeated `add_user`: the ids returned by `n` successive calls, and the
final registry state. -/
def addUsers (s : ServerData) : Nat → List Nat × ServerData
  | 0 => ([], s)
  | n + 1 =>
    let p := s.add_user
    let q := addUsers p.2 n
    (p.1 :: q.1, q.2)

/-- A fresh game between host `1` and opponent `2` with secret "banana", as
in scenario 3 of the spec (concrete game id `7`). -/
def bananaGame : Game :=
  { game_id := 7, host_id := 1, opponent_id := 2, secret := ascii "banana"
    attempts := 3, last_guess := [], last_hint := [], game_state := .Ongoing }

/-- A registry with connected users `1` and `2` and the single ongoing game
`bananaGame`. -/
def twoUserServer : ServerData :=
  { connected_users := [1, 2], password := ascii "dota2"
    server_type := .TCP, ongoing_games := [bananaGame] }

/-- A registry with only user `2` connected and no games. -/
def soloServer : ServerData :=
  { connected_users := [2], password := ascii "pw"
    server_type := .TCP, ongoing_games := [] }

/-- A registry with no connected users and no games. -/
def emptyServer : ServerData :=
  { connected_users := [], password := ascii "pw"
    server_type := .TCP, ongoing_games := [] }

theorem deserialize_cons (b0 b1 b2 : Nat) (rest : List Nat)
    (hpos : 0 < b0 * 256 + b1) (hle2 : b0 * 256 + b1 ≤ rest.length) :
    BinaryMessage.deserialize (b0 :: b1 :: b2 :: rest) =
      some { length := b0 * 256 + b1
             message_type :=
               match b2 with | 1 => .Command | 2 => .Message | _ => .Unknown
             message := rest.take (b0 * 256 + b1) } := by
  have hcond : b0 * 256 + b1 + 3 ≤ (b0 :: b1 :: b2 :: rest).length := by
    simp only [List.length_cons]
    omega
  simp only [BinaryMessage.deserialize]
  rw [if_pos hpos, if_pos hcond]

/-- C2: for every well-formed wire message (length field agreeing with the
payload, payload at most 65535 bytes), deserializing the serialization gives
back the same message. -/
theorem deserialize_serialize (m : BinaryMessage)
    (hwf : m.length = m.message.length) (hle : m.message.length ≤ 65535) :
    BinaryMessage.deserialize m.serialize = some m := by
  cases m with
  | mk len mt msg =>
    dsimp only at hwf hle
    subst hwf
    have hval : msg.length / 256 % 256 * 256 + msg.length % 256 = msg.length := by
      omega
    show BinaryMessage.deserialize
        (msg.length / 256 % 256 :: msg.length % 256 :: mt.tag :: msg) =
      some ⟨msg.length, mt, msg⟩
    rcases Nat.eq_zero_or_pos msg.length with h0 | hpos
    · obtain rfl : msg = ([] : List Nat) := List.length_eq_zero.mp h0
      cases mt <;> rfl
    · rw [deserialize_cons _ _ _ _ (by omega) (by omega), hval, List.take_length]
      cases mt <;> rfl

theorem deserialize_serialize_witness :
    BinaryMessage.deserialize
        (BinaryMessage.serialize ⟨2, .Command, [72, 73]⟩) =
      some ⟨2, .Command, [72, 73]⟩ :=
  deserialize_serialize ⟨2, .Command, [72, 73]⟩ rfl (by decide)

/-- C3: a length prefix pointing past the end of the buffer is not clamped
or rejected with an `Unknown`/empty message — the slice indexing panics
(modelled as `none`): buffer `[0, 5, 1, 65]` declares 5 payload bytes but
carries only one. -/
theorem deserialize_oob_panics :
    BinaryMessage.deserialize [0, 5, 1, 65] = none := by
  decide

/-- C1: in scenario 3 (opponent `2` guesses the secret "banana"), the Guess
arm dispatches on the game state read before `update_game_guess` ran, so the
opponent's reply is the "IS INCORRECT" Message (not Command "VICTORY"), the
host is sent an "IS INCORRECT" Message (not Command "DEFEAT"), and the game —
now in state `Victory` — stays in `ongoing_games`. -/
theorem guess_victory_stale_state :
    execute (.Guess (ascii "banana")) twoUserServer 2 0 =
      some { server := { twoUserServer with
               ongoing_games := [{ bananaGame with game_state := .Victory }] }
             sent := [(1, BinaryMessage.new_message
               (ascii "Guess banana IS INCORRECT, 3 ATTEMPTS LEFT"))]
             reply := .ok (BinaryMessage.new_message
               (ascii "OK GUESS banana IS INCORRECT, 3 ATTEMPTS LEFT")) } := by
  decide

/-- C9: the same execution shows the registry invariant broken: after the
correct guess the game left in `ongoing_games` is in the terminal state
`Victory`. -/
theorem terminal_game_left_in_registry :
    (execute (.Guess (ascii "banana")) twoUserServer 2 0).map
        (fun o => o.server.ongoing_games.map Game.game_state) =
      some [GameState.Victory] := by
  decide

/-- C6: when opponent `2` issues DROP, the "MATCH CANCELED" side-message is
routed to the game's `opponent_id` — the acting user themself, not the
host — and the acting user is never removed from `connected_users`
(`drop_user` sits behind a second game lookup that fails once the only game
is terminated). -/
theorem drop_command_keeps_user :
    execute .Drop twoUserServer 2 0 =
      some { server := { twoUserServer with ongoing_games := [] }
             sent := [(2, BinaryMessage.new_message (ascii "MATCH CANCELED"))]
             reply := .error (.TerminateUser (ascii "user 2 dropped")) } := by
  decide

/-- C7: when opponent `2` (not a host) issues HINT, the command returns an
error, yet the game's `last_hint` has already been overwritten — the error
path does not leave the registry unchanged. -/
theorem hint_error_mutates_state :
    execute (.Hint (ascii "xyz")) twoUserServer 2 0 =
      some { server := { twoUserServer with
               ongoing_games := [{ bananaGame with last_hint := ascii "xyz" }] }
             sent := []
             reply := .error (.ErrorMessage (ascii "game has no oppponent")) } := by
  decide

/-- C8: a DM payload carrying a recipient id but no message text ("DM 5")
panics at the `tokens[1]` indexing instead of producing a recoverable error
reply — the interpreter is not total over DM argument byte strings. -/
theorem dm_missing_text_panics :
    execute (.DirectMessage (ascii "5")) twoUserServer 1 0 = none := by
  decide

theorem updateGamesGuess_skip (id : Nat) (guess : List Nat) (pre rest : List Game)
    (hfresh : ∀ g0 ∈ pre, g0.game_id ≠ id) :
    updateGamesGuess id guess (pre ++ rest) =
      (updateGamesGuess id guess rest).map fun p => (p.1, pre ++ p.2) := by
  induction pre with
  | nil =>
    simp only [List.nil_append]
    cases updateGamesGuess id guess rest <;> simp
  | cons g pre ih =>
    have hg : g.game_id ≠ id := hfresh g (List.mem_cons_self g pre)
    have ih' := ih fun g0 hg0 => hfresh g0 (List.mem_cons_of_mem g hg0)
    show updateGamesGuess id guess (g :: (pre ++ rest)) = _
    rw [updateGamesGuess, if_neg hg, ih']
    cases updateGamesGuess id guess rest <;> simp

theorem update_game_guess_split (s : ServerData) (pre post : List Game) (g : Game)
    (guess : List Nat) (hsplit : s.ongoing_games = pre ++ g :: post)
    (hfresh : ∀ g0 ∈ pre, g0.game_id ≠ g.game_id) :
    s.update_game_guess g.game_id guess =
      .ok ((guessStep guess g).1,
        { s with ongoing_games := pre ++ (guessStep guess g).2 :: post }) := by
  unfold ServerData.update_game_guess
  rw [hsplit, updateGamesGuess_skip _ _ _ _ hfresh]
  simp [updateGamesGuess]

theorem guessStep_right (g : Game) (guess : List Nat)
    (heq : toLowercase guess = toLowercase g.secret) :
    guessStep guess g = (.Victory, { g with game_state := .Victory }) := by
  simp [guessStep, heq]

theorem guessStep_wrong_ongoing (g : Game) (guess : List Nat)
    (hne : toLowercase guess ≠ toLowercase g.secret)
    (h2 : 2 ≤ g.attempts) (h255 : g.attempts ≤ 255)
    (hstate : g.game_state = .Ongoing) :
    guessStep guess g =
      (.Ongoing, { g with attempts := g.attempts - 1, last_guess := guess }) := by
  have ha : (g.attempts + 255) % 256 = g.attempts - 1 := by omega
  have hz : ¬(g.attempts - 1 = 0) := by omega
  simp [guessStep, hne, ha, hz, hstate]

theorem guessStep_wrong_defeat (g : Game) (guess : List Nat)
    (hne : toLowercase guess ≠ toLowercase g.secret) (h1 : g.attempts = 1) :
    guessStep guess g =
      (.Defeat,
        { g with attempts := 0, last_guess := guess, game_state := .Defeat }) := by
  simp [guessStep, hne, h1]

/-- C4: the registry applies a guess to an `Ongoing` game by exactly the
specified rule — a case-insensitive match yields `Victory` on any attempt;
otherwise the attempts counter is decremented and `last_guess` recorded,
reaching `Defeat` exactly when it hits zero — and consequently, from
`attempts = 3`, three wrong guesses report `Ongoing`, `Ongoing`, `Defeat`. -/
theorem apply_guess_rule (s : ServerData) (pre post : List Game) (g : Game)
    (guess : List Nat) (hsplit : s.ongoing_games = pre ++ g :: post)
    (hfresh : ∀ g0 ∈ pre, g0.game_id ≠ g.game_id)
    (hstate : g.game_state = .Ongoing) (h255 : g.attempts ≤ 255) :
    (toLowercase guess = toLowercase g.secret →
      s.update_game_guess g.game_id guess =
        .ok (.Victory,
          { s with ongoing_games :=
              pre ++ { g with game_state := .Victory } :: post })) ∧
    (toLowercase guess ≠ toLowercase g.secret → 2 ≤ g.attempts →
      s.update_game_guess g.game_id guess =
        .ok (.Ongoing,
          { s with ongoing_games :=
              pre ++ { g with attempts := g.attempts - 1, last_guess := guess } :: post })) ∧
    (toLowercase guess ≠ toLowercase g.secret → g.attempts = 1 →
      s.update_game_guess g.game_id guess =
        .ok (.Defeat,
          { s with ongoing_games :=
              pre ++
                { g with attempts := 0, last_guess := guess, game_state := .Defeat }
                :: post })) ∧
    (∀ (s0 : ServerData) (g0 : Game) (w : List Nat),
      s0.ongoing_games = [g0] → g0.game_state = .Ongoing → g0.attempts = 3 →
      toLowercase w ≠ toLowercase g0.secret →
      ∃ s1 s2 s3,
        s0.update_game_guess g0.game_id w = .ok (.Ongoing, s1) ∧
        s1.update_game_guess g0.game_id w = .ok (.Ongoing, s2) ∧
        s2.update_game_guess g0.game_id w = .ok (.Defeat, s3)) := by
  refine ⟨?_, ?_, ?_, ?_⟩
  · intro heq
    rw [update_game_guess_split s pre post g guess hsplit hfresh,
      guessStep_right g guess heq]
  · intro hne h2
    rw [update_game_guess_split s pre post g guess hsplit hfresh,
      guessStep_wrong_ongoing g guess hne h2 h255 hstate]
  · intro hne h1
    rw [update_game_guess_split s pre post g guess hsplit hfresh,
      guessStep_wrong_defeat g guess hne h1]
  · intro s0 g0 w h0 hst h3 hw
    obtain ⟨gid, hid, oid, sec, att, lg, lh, gst⟩ := g0
    dsimp only at hst h3 hw ⊢
    subst hst h3
    refine ⟨{ s0 with ongoing_games := [Game.mk gid hid oid sec 2 w lh .Ongoing] },
      { s0 with ongoing_games := [Game.mk gid hid oid sec 1 w lh .Ongoing] },
      { s0 with ongoing_games := [Game.mk gid hid oid sec 0 w lh .Defeat] },
      ?_, ?_, ?_⟩
    · have e := update_game_guess_split s0 [] []
        (Game.mk gid hid oid sec 3 lg lh .Ongoing) w h0 (by simp)
      dsimp only at e
      rw [e]
      simp [guessStep, hw]
    · have e := update_game_guess_split
        { s0 with ongoing_games := [Game.mk gid hid oid sec 2 w lh .Ongoing] } [] []
        (Game.mk gid hid oid sec 2 w lh .Ongoing) w rfl (by simp)
      dsimp only at e
      rw [e]
      simp [guessStep, hw]
    · have e := update_game_guess_split
        { s0 with ongoing_games := [Game.mk gid hid oid sec 1 w lh .Ongoing] } [] []
        (Game.mk gid hid oid sec 1 w lh .Ongoing) w rfl (by simp)
      dsimp only at e
      rw [e]
      simp [guessStep, hw]

theorem apply_guess_rule_witness :
    twoUserServer.update_game_guess bananaGame.game_id (ascii "BANANA") =
      .ok (.Victory,
        { twoUserServer with ongoing_games :=
            [] ++ { bananaGame with game_state := .Victory } :: [] }) :=
  (apply_guess_rule twoUserServer [] [] bananaGame (ascii "BANANA") rfl
    (by simp) rfl (by decide)).1 (by decide)

theorem listMax_append (l : List Nat) (a : Nat) :
    listMax (l ++ [a]) = Nat.max (listMax l) a := by
  simp [listMax, List.foldl_append]

theorem listMax_range' (n : Nat) : listMax (List.range' 1 n) = n := by
  induction n with
  | zero => rfl
  | succ n ih =>
    rw [List.range'_concat, listMax_append, ih]
    have h1 : 1 + 1 * n = n + 1 := by omega
    rw [h1]
    exact Nat.max_eq_right (by omega)

theorem addUsers_general (n : Nat) :
    ∀ (k : Nat) (s : ServerData), s.connected_users = List.range' 1 k →
      (addUsers s n).1 = List.range' (k + 1) n ∧
      (addUsers s n).2.connected_users = List.range' 1 (k + n) := by
  induction n with
  | zero =>
    intro k s h
    exact ⟨rfl, by simpa using h⟩
  | succ n ih =>
    intro k s h
    have hid : s.add_user.1 = k + 1 := by
      dsimp [ServerData.add_user]
      rw [h, listMax_range']
    have hconn : s.add_user.2.connected_users = List.range' 1 (k + 1) := by
      dsimp [ServerData.add_user]
      rw [h, listMax_range', List.range'_concat]
      have h1 : 1 + 1 * k = k + 1 := by omega
      rw [h1]
    obtain ⟨ih1, ih2⟩ := ih (k + 1) s.add_user.2 hconn
    constructor
    · show s.add_user.1 :: (addUsers s.add_user.2 n).1 = List.range' (k + 1) (n + 1)
      rw [hid, ih1]
      rfl
    · show (addUsers s.add_user.2 n).2.connected_users = List.range' 1 (k + (n + 1))
      rw [ih2]
      have : k + 1 + n = k + (n + 1) := by omega
      rw [this]

/-- C5: `add_user` called `n` times on an empty registry yields the ids
`1..n` in order; and after dropping a connected id `k`, the next `add_user`
returns `max(remaining) + 1`, which cannot equal `k` while some remaining id
is at least `k`. -/
theorem add_user_monotonic :
    (∀ (n : Nat) (s0 : ServerData), s0.connected_users = [] →
      (addUsers s0 n).1 = List.range' 1 n ∧
      (addUsers s0 n).2.connected_users = List.range' 1 n) ∧
    (∀ (s : ServerData) (k : Nat), s.user_exists k = true →
      ∃ s1, s.drop_user k = .ok s1 ∧
        s1.add_user.1 = listMax s1.connected_users + 1 ∧
        (k ≤ listMax s1.connected_users → s1.add_user.1 ≠ k)) := by
  constructor
  · intro n s0 h
    have h0 : s0.connected_users = List.range' 1 0 := by simpa using h
    simpa using addUsers_general n 0 s0 h0
  · intro s k h
    refine ⟨{ s with connected_users := s.connected_users.filter fun x => x != k },
      ?_, rfl, ?_⟩
    · simp [ServerData.drop_user, h]
    · intro hk
      have hk' : k ≤ listMax (s.connected_users.filter fun x => x != k) := hk
      show listMax (s.connected_users.filter fun x => x != k) + 1 ≠ k
      omega

theorem add_user_monotonic_witness :
    (addUsers emptyServer 3).1 = List.range' 1 3 :=
  (add_user_monotonic.1 3 emptyServer rfl).1

/-- C10: `start_game` checks only that the guest is connected and distinct
from the host; the host id is never looked up, so any host — even id `0` or
a dropped user — can appear, and the new game is appended with that host. -/
theorem start_game_ignores_host (s : ServerData) (ts h o : Nat) (secret : List Nat)
    (ho : o ∈ s.connected_users) (hne : o ≠ h) :
    s.start_game ts h o secret =
      .ok ((Game.new ts h o secret).game_id,
        { s with ongoing_games := s.ongoing_games ++ [Game.new ts h o secret] }) ∧
    (Game.new ts h o secret).host_id = h ∧
    (Game.new ts h o secret).opponent_id = o ∧
    (Game.new ts h o secret).game_state = .Ongoing := by
  refine ⟨?_, rfl, rfl, rfl⟩
  have hany : (s.connected_users.any fun id => o == id) = true :=
    List.any_eq_true.mpr ⟨o, ho, by simp⟩
  simp [ServerData.start_game, hany, hne]

theorem start_game_ignores_host_witness :
    soloServer.start_game 5 0 2 (ascii "s") =
      .ok ((Game.new 5 0 2 (ascii "s")).game_id,
        { soloServer with ongoing_games :=
            soloServer.ongoing_games ++ [Game.new 5 0 2 (ascii "s")] }) :=
  (start_game_ignores_host soloServer 5 0 2 (ascii "s") (by decide) (by decide)).1

end LuxoServer
